import Mathlib

/-!
Verification of the Calculatorwebapp repository: a four-operation arithmetic
REST service (`app/calculator.py`, `app/main.py`) and a GitHub metrics
collection script (`metrics/main.py`).

Modelling conventions:
* Python floats are embedded as rationals (`ℚ`), so arithmetic is exact.
* GitHub ISO-8601 UTC timestamp strings are embedded as epoch seconds (`ℤ`);
  lexicographic order on those strings coincides with chronological order, so
  sorting by the string key is sorting by the integer key.
* Python exceptions become `Except String`; an uncaught exception aborts the
  process, modelled by propagating the `Except.error` value.
* Network responses are a parameter (a page function / a `FetchEnv`), the
  standard shallow embedding of blocking HTTP GET calls.
-/

namespace CalcApp

/-- Exact message carried by `DivisionByZeroError` (`app/calculator.py`). -/
def divisionByZeroMessage : String := "Division by zero is not allowed"

/-- `add(a, b)` from `app/calculator.py`: returns `a + b`. -/
def add (a b : ℚ) : ℚ := a + b

/-- `subtract(a, b)` from `app/calculator.py`: returns `a - b`. -/
def subtract (a b : ℚ) : ℚ := a - b

/-- `multiply(a, b)` from `app/calculator.py`: returns `a * b`. -/
def multiply (a b : ℚ) : ℚ := a * b

/-- `divide(a, b)` from `app/calculator.py`: raises `DivisionByZeroError`
(with its default message) if `b == 0`, else returns `a / b`. -/
def divide (a b : ℚ) : Except String ℚ :=
  if b = 0 then Except.error divisionByZeroMessage else Except.ok (a / b)

end CalcApp

namespace CalcApp

/-! ### `app/main.py`: the HTTP layer -/

/-- Request body `{a, b}` validated by the `OperationRequest` pydantic model. -/
structure OperationRequest where
  a : ℚ
  b : ℚ
deriving DecidableEq

/-- HTTP responses the `/div` handler can produce: `200 {"result": r}` on
success, or `400 {"detail": msg}` raised via `HTTPException(status_code=400)`. -/
inductive Response where
  | success (result : ℚ)
  | badRequest (detail : String)
deriving DecidableEq

/-- The HTTP status code of a `Response`. -/
def Response.statusCode : Response → ℕ
  | .success _ => 200
  | .badRequest _ => 400

/-- `divide_numbers` from `app/main.py`: calls `divide` and translates
`DivisionByZeroError` into an `HTTPException` with status 400 and the
exception's message as detail. -/
def divide_numbers (request : OperationRequest) : Response :=
  match divide request.a request.b with
  | .ok result => .success result
  | .error e => .badRequest e

end CalcApp

namespace Metrics

/-! ### `metrics/main.py`: data model

A workflow run as consumed by the collectors: `name`, `conclusion`,
`created_at`, and the optional `run_started_at` / `updated_at` fields.
`conclusion` is a plain string so that values other than `"success"` /
`"failure"` (e.g. `"cancelled"`, `"skipped"`) are representable. -/
structure WorkflowRun where
  name : String
  conclusion : String
  created_at : ℤ
  run_started_at : Option ℤ
  updated_at : Option ℤ
deriving DecidableEq

/-- A pull request as consumed by the collectors: author login, creation
time, and optional merge time (`merged_at` is null for unmerged PRs). -/
structure PullRequest where
  user_login : String
  created_at : ℤ
  merged_at : Option ℤ
deriving DecidableEq

/-- Seconds-delta converted to hours, as in
`(t2 - t1).total_seconds() / 3600`. -/
def elapsedHours (t1 t2 : ℤ) : ℚ := ((t2 - t1 : ℤ) : ℚ) / 3600

/-- Seconds-delta converted to minutes, as in
`(t2 - t1).total_seconds() / 60`. -/
def elapsedMinutes (t1 t2 : ℤ) : ℚ := ((t2 - t1 : ℤ) : ℚ) / 60

/-- Python's `round` ties-to-even applied to a rational, yielding the nearest
integer (half-way cases go to the even neighbour). -/
def roundHalfToEven (q : ℚ) : ℤ :=
  if q - ⌊q⌋ < 1 / 2 then ⌊q⌋
  else if 1 / 2 < q - ⌊q⌋ then ⌊q⌋ + 1
  else if ⌊q⌋ % 2 = 0 then ⌊q⌋ else ⌊q⌋ + 1

/-- Python's `round(q, 2)`: round to two decimal places, ties to even. -/
def round2 (q : ℚ) : ℚ := (roundHalfToEven (q * 100) : ℚ) / 100

/-- The guard pattern `round(v, 2) if v else None` used throughout
`metrics/main.py`: Python float truthiness means the rounded value is kept
only when `v` is present and non-zero. -/
def truthyRound2 (v : Option ℚ) : Option ℚ :=
  match v with
  | none => none
  | some q => if q = 0 then none else some (round2 q)

/-- `sorted(runs, key=lambda x: x["created_at"])`: Python's stable sort by the
creation timestamp, modelled by stable insertion sort. -/
def sortByCreated (runs : List WorkflowRun) : List WorkflowRun :=
  List.insertionSort (fun x y => x.created_at ≤ y.created_at) runs

/-- `sorted(lead_times)` on a list of rationals. -/
def sortQ (l : List ℚ) : List ℚ :=
  List.insertionSort (fun a b => a ≤ b) l

/-- `sum(1 for r in runs if r["conclusion"] == c)`. -/
def countConclusion (c : String) (runs : List WorkflowRun) : ℕ :=
  runs.countP (fun r => r.conclusion == c)

/-! ### `_get_paginated` (`metrics/main.py` lines 32-52)

The page contents are a parameter `pages : ℕ → List α` (the body returned by
the GET for each `page` number).  The `while True:` loop increments `page`
starting from 1 and breaks as soon as `page` would exceed 10, so it runs at
most 10 iterations; the explicit fuel of 10 consumed once per iteration is
therefore never exhausted from the initial state (`page = 1`), and every
`break` of the source is an explicit terminal branch below.  The second
component of the result counts the GET requests issued. -/
def paginateAux (pages : ℕ → List α) : ℕ → ℕ → List α → List α × ℕ
  | 0, _, acc => (acc, 0)
  | fuel + 1, page, acc =>
    let items := pages page
    if items.isEmpty then (acc, 1)
    else if items.length < 100 then (acc ++ items, 1)
    else if 10 < page + 1 then (acc ++ items, 1)
    else
      let r := paginateAux pages fuel (page + 1) (acc ++ items)
      (r.1, r.2 + 1)

/-- `_get_paginated`: start at `page = 1` with an empty accumulator; returns
the accumulated items and the number of page requests issued. -/
def getPaginated (pages : ℕ → List α) : List α × ℕ :=
  paginateAux pages 10 1 []

/-- `get_workflow_runs`'s filter step (`metrics/main.py` lines 67-71):
keep the runs whose `name` equals the given workflow name case-insensitively. -/
def filterByWorkflowName (name : String) (runs : List WorkflowRun) : List WorkflowRun :=
  runs.filter (fun r => r.name.toLower == name.toLower)

/-! ### `collect_dora_metrics` (`metrics/main.py` lines 73-102) -/

/-- The inner `for next_run in sorted_runs[i + 1:]` loop: first run after the
failure whose conclusion is `"success"`. -/
def firstSuccessAfter (rest : List WorkflowRun) : Option WorkflowRun :=
  rest.find? (fun s => s.conclusion == "success")

/-- The MTTR double loop of `collect_dora_metrics` (lines 83-94) on the
already-sorted list: walk the runs; at each failure, look for a later success
and stop with the elapsed hours if one exists, otherwise keep walking. -/
def mttrScan : List WorkflowRun → Option ℚ
  | [] => none
  | r :: rest =>
    if r.conclusion == "failure" then
      match firstSuccessAfter rest with
      | some s => some (elapsedHours r.created_at s.created_at)
      | none => mttrScan rest
    else mttrScan rest

/-- The value of the `mttr_hours` variable after the loop of
`collect_dora_metrics`: the scan applied to the runs sorted by `created_at`. -/
def doraMttrHours (cd_runs : List WorkflowRun) : Option ℚ :=
  mttrScan (sortByCreated cd_runs)

/-- Spec-side definition, for comparison with `mttrScan`: the elapsed hours
between the chronologically first failed run and the first success strictly
after it in the scan order, `none` when no such pair exists (the scan stops at
the first failure even if it has no later success). -/
def mttrFirstFailureNextSuccess : List WorkflowRun → Option ℚ
  | [] => none
  | r :: rest =>
    if r.conclusion == "failure" then
      (firstSuccessAfter rest).map (fun s => elapsedHours r.created_at s.created_at)
    else mttrFirstFailureNextSuccess rest

/-- The `dora` entry of the metrics report. -/
structure DoraMetrics where
  deployments_total : ℕ
  deployments_successful : ℕ
  deployments_failed : ℕ
  change_failure_rate_percent : ℚ
  mttr_hours : Option ℚ
deriving DecidableEq

/-- `collect_dora_metrics`, as a function of the fetched CD workflow runs. -/
def collect_dora_metrics (cd_runs : List WorkflowRun) : DoraMetrics :=
  let total := cd_runs.length
  let successful := countConclusion "success" cd_runs
  let failed := countConclusion "failure" cd_runs
  let change_failure_rate : ℚ := if 0 < total then (failed : ℚ) / (total : ℚ) * 100 else 0
  { deployments_total := total
    deployments_successful := successful
    deployments_failed := failed
    change_failure_rate_percent := round2 change_failure_rate
    mttr_hours := truthyRound2 (doraMttrHours cd_runs) }

/-! ### `collect_pr_metrics` (`metrics/main.py` lines 104-137) -/

/-- The `merged_prs` filter: PRs with a non-null `merged_at` not earlier than
the window start. -/
def mergedInWindow (windowStart : ℤ) (prs : List PullRequest) : List PullRequest :=
  prs.filter (fun pr =>
    match pr.merged_at with
    | some m => windowStart ≤ m
    | none => false)

/-- The `lead_times` accumulation: hours from `created_at` to `merged_at` for
each merged PR (every element of `mergedInWindow` has a `merged_at`). -/
def leadTimes (merged_prs : List PullRequest) : List ℚ :=
  merged_prs.filterMap (fun pr =>
    pr.merged_at.map (fun m => elapsedHours pr.created_at m))

/-- `sum(l) / len(l) if l else None`. -/
def averageQ (l : List ℚ) : Option ℚ :=
  if l.isEmpty then none else some (l.sum / (l.length : ℚ))

/-- `sorted(l)[len(l) // 2] if l else None`: the sorted-list midpoint index
used as a median proxy. -/
def medianLeadTime (lead_times : List ℚ) : Option ℚ :=
  if lead_times.isEmpty then none
  else (sortQ lead_times).get? (lead_times.length / 2)

/-- The `pull_requests` entry of the metrics report. -/
structure PrMetrics where
  pr_throughput : ℕ
  pr_lead_time_avg_hours : Option ℚ
  pr_lead_time_median_hours : Option ℚ
deriving DecidableEq

/-- `collect_pr_metrics`, as a function of the window start and the fetched
closed PRs. -/
def collect_pr_metrics (windowStart : ℤ) (prs : List PullRequest) : PrMetrics :=
  let merged_prs := mergedInWindow windowStart prs
  let lead_times := leadTimes merged_prs
  { pr_throughput := merged_prs.length
    pr_lead_time_avg_hours := truthyRound2 (averageQ lead_times)
    pr_lead_time_median_hours := truthyRound2 (medianLeadTime lead_times) }

/-! ### `collect_ci_metrics` (`metrics/main.py` lines 139-160) -/

/-- The `durations` accumulation shared by the CI and deploy collectors:
minutes from `run_started_at` to `updated_at` for runs where both fields are
present (and, when `onlySuccess` is set, whose conclusion is `"success"`). -/
def runDurationsMinutes (onlySuccess : Bool) (runs : List WorkflowRun) : List ℚ :=
  runs.filterMap (fun r =>
    match r.run_started_at, r.updated_at with
    | some s, some u =>
      if onlySuccess && !(r.conclusion == "success") then none
      else some (elapsedMinutes s u)
    | _, _ => none)

/-- The `ci_health` entry of the metrics report. -/
structure CiMetrics where
  ci_runs_total : ℕ
  ci_success_rate_percent : ℚ
  ci_avg_duration_minutes : Option ℚ
deriving DecidableEq

/-- `collect_ci_metrics`, as a function of the fetched CI workflow runs. -/
def collect_ci_metrics (ci_runs : List WorkflowRun) : CiMetrics :=
  let total := ci_runs.length
  let successful := countConclusion "success" ci_runs
  let success_rate : ℚ := if 0 < total then (successful : ℚ) / (total : ℚ) * 100 else 0
  { ci_runs_total := total
    ci_success_rate_percent := round2 success_rate
    ci_avg_duration_minutes := truthyRound2 (averageQ (runDurationsMinutes false ci_runs)) }

/-! ### `collect_security_metrics` (`metrics/main.py` lines 162-181) -/

/-- The `security` entry of the metrics report. -/
structure SecurityMetrics where
  security_runs_total : ℕ
  security_success_rate_percent : ℚ
  security_last_conclusion : Option String
deriving DecidableEq

/-- `collect_security_metrics`, as a function of the fetched Security runs.
`sorted(..., reverse=True)[0]` is the head after a stable descending sort. -/
def collect_security_metrics (security_runs : List WorkflowRun) : SecurityMetrics :=
  let total := security_runs.length
  let successful := countConclusion "success" security_runs
  let success_rate : ℚ := if 0 < total then (successful : ℚ) / (total : ℚ) * 100 else 0
  let last_conclusion :=
    (List.insertionSort (fun x y => y.created_at ≤ x.created_at) security_runs).head?.map
      (·.conclusion)
  { security_runs_total := total
    security_success_rate_percent := round2 success_rate
    security_last_conclusion := last_conclusion }

/-! ### `collect_deploy_duration_metrics` (`metrics/main.py` lines 211-232) -/

/-- The `deploy_health` entry of the metrics report. -/
structure DeployMetrics where
  deploy_avg_duration_minutes : Option ℚ
deriving DecidableEq

/-- `collect_deploy_duration_metrics`, as a function of the fetched CD runs:
average duration of successful deploys, `None`-guarded as everywhere else. -/
def collect_deploy_duration_metrics (cd_runs : List WorkflowRun) : DeployMetrics :=
  { deploy_avg_duration_minutes :=
      truthyRound2 (averageQ (runDurationsMinutes true cd_runs)) }

/-! ### `collect_dependabot_metrics` (`metrics/main.py` lines 183-209) -/

/-- The `dependabot` entry of the metrics report. -/
structure DependabotMetrics where
  dependabot_prs_open : ℕ
  dependabot_prs_merged : ℕ
deriving DecidableEq

/-- `collect_dependabot_metrics`, as a function of the window start and the
fetched open and closed PR lists. -/
def collect_dependabot_metrics (windowStart : ℤ) (open_prs closed_prs : List PullRequest) :
    DependabotMetrics :=
  { dependabot_prs_open :=
      open_prs.countP (fun pr => pr.user_login == "dependabot[bot]")
    dependabot_prs_merged :=
      closed_prs.countP (fun pr =>
        pr.user_login == "dependabot[bot]" &&
          (match pr.merged_at with
           | some m => decide (windowStart ≤ m)
           | none => false)) }

/-! ### The fetching layer (`_get`, `collect_all_metrics`, `main`)

`_get` calls `response.raise_for_status()`: a non-success HTTP status raises,
modelled by `Except.error`.  The network is a parameter: for each family of
(endpoint, params) pairs actually issued by the collectors, a function from
page number to the page's outcome.  The three families are the workflow-runs
listing (`GET /repos/{repo}/actions/runs?created=...`, issued by the four
workflow collectors), the closed-PR listing (`GET /repos/{repo}/pulls?state=
closed&sort=updated&direction=desc`, issued by the PR and Dependabot
collectors) and the open-PR listing (`GET /repos/{repo}/pulls?state=open`,
issued by the Dependabot collector). -/
structure FetchEnv where
  runsPage : ℕ → Except String (List WorkflowRun)
  pullsClosedPage : ℕ → Except String (List PullRequest)
  pullsOpenPage : ℕ → Except String (List PullRequest)

/-- `_get_paginated` over a fallible page fetch: identical loop shape to
`paginateAux`, but each page GET may raise, and a raise aborts the whole
collection (no retry, no handler anywhere in `metrics/main.py`). -/
def paginateExAux (fetch : ℕ → Except String (List α)) :
    ℕ → ℕ → List α → Except String (List α)
  | 0, _, acc => .ok acc
  | fuel + 1, page, acc =>
    match fetch page with
    | .error e => .error e
    | .ok items =>
      if items.isEmpty then .ok acc
      else if items.length < 100 then .ok (acc ++ items)
      else if 10 < page + 1 then .ok (acc ++ items)
      else paginateExAux fetch fuel (page + 1) (acc ++ items)

/-- `_get_paginated` from page 1 over a fallible page fetch. -/
def getPaginatedEx (fetch : ℕ → Except String (List α)) : Except String (List α) :=
  paginateExAux fetch 10 1 []

/-- `get_workflow_runs name`: paginated fetch of the runs listing, then the
case-insensitive name filter. -/
def getWorkflowRunsEx (env : FetchEnv) (name : String) :
    Except String (List WorkflowRun) :=
  (getPaginatedEx env.runsPage).map (filterByWorkflowName name)

/-- `collect_dora_metrics` including its own fetch. -/
def collectDoraEx (env : FetchEnv) : Except String DoraMetrics :=
  (getWorkflowRunsEx env "CD - Azure Web App").map collect_dora_metrics

/-- `collect_pr_metrics` including its own fetch. -/
def collectPrEx (windowStart : ℤ) (env : FetchEnv) : Except String PrMetrics :=
  (getPaginatedEx env.pullsClosedPage).map (collect_pr_metrics windowStart)

/-- `collect_ci_metrics` including its own fetch. -/
def collectCiEx (env : FetchEnv) : Except String CiMetrics :=
  (getWorkflowRunsEx env "CI").map collect_ci_metrics

/-- `collect_deploy_duration_metrics` including its own fetch. -/
def collectDeployEx (env : FetchEnv) : Except String DeployMetrics :=
  (getWorkflowRunsEx env "CD - Azure Web App").map collect_deploy_duration_metrics

/-- `collect_security_metrics` including its own fetch. -/
def collectSecurityEx (env : FetchEnv) : Except String SecurityMetrics :=
  (getWorkflowRunsEx env "Security").map collect_security_metrics

/-- `collect_dependabot_metrics` including its two fetches, in source order:
open PRs first, then closed PRs. -/
def collectDependabotEx (windowStart : ℤ) (env : FetchEnv) :
    Except String DependabotMetrics := do
  let open_prs ← getPaginatedEx env.pullsOpenPage
  let closed_prs ← getPaginatedEx env.pullsClosedPage
  pure (collect_dependabot_metrics windowStart open_prs closed_prs)

/-- The report assembled by `collect_all_metrics` (the `generated_at`,
`window_days` and `repository` tags carry no computed content and are
omitted). -/
structure MetricsReport where
  dora : DoraMetrics
  pull_requests : PrMetrics
  ci_health : CiMetrics
  deploy_health : DeployMetrics
  security : SecurityMetrics
  dependabot : DependabotMetrics

/-- `collect_all_metrics`: runs the six collectors sequentially in the order
of the dict literal; the first uncaught exception aborts the whole
collection. -/
def collect_all_metrics (windowStart : ℤ) (env : FetchEnv) :
    Except String MetricsReport := do
  let dora ← collectDoraEx env
  let pull_requests ← collectPrEx windowStart env
  let ci_health ← collectCiEx env
  let deploy_health ← collectDeployEx env
  let security ← collectSecurityEx env
  let dependabot ← collectDependabotEx windowStart env
  pure ⟨dora, pull_requests, ci_health, deploy_health, security, dependabot⟩

/-- `main`: `collect_all_metrics` runs before `open("site/metrics.json")`, so
an exception escaping collection aborts the process before the file is
created; the file is written (with the full report) exactly when collection
succeeds. -/
def mainOutputFile (windowStart : ℤ) (env : FetchEnv) : Option MetricsReport :=
  match collect_all_metrics windowStart env with
  | .ok m => some m
  | .error _ => none

end Metrics

/-! ## Witness inputs -/

namespace Metrics

/-- A CD run that failed; all timestamps coincide. -/
def wRunFail : WorkflowRun :=
  { name := "CD - Azure Web App", conclusion := "failure", created_at := 0,
    run_started_at := some 0, updated_at := some 0 }

/-- A CD run that succeeded at the same instant as `wRunFail`. -/
def wRunSucc : WorkflowRun :=
  { name := "CD - Azure Web App", conclusion := "success", created_at := 0,
    run_started_at := some 0, updated_at := some 0 }

/-- A CI run whose start and update instants coincide. -/
def wRunCi : WorkflowRun :=
  { name := "CI", conclusion := "success", created_at := 0,
    run_started_at := some 0, updated_at := some 0 }

/-- A PR merged at the instant it was created. -/
def wPrZero : PullRequest :=
  { user_login := "alice", created_at := 0, merged_at := some 0 }

/-- An environment in which every single page GET raises. -/
def envAllError : FetchEnv :=
  { runsPage := fun _ => .error "boom"
    pullsClosedPage := fun _ => .error "boom"
    pullsOpenPage := fun _ => .error "boom" }

end Metrics

/-! ## Helper lemmas -/

namespace Metrics

theorem round2_zero : round2 0 = 0 := by
  norm_num [round2, roundHalfToEven]

theorem roundHalfToEven_nonneg (q : ℚ) (hq : 0 ≤ q) : 0 ≤ roundHalfToEven q := by
  have h0 : (0 : ℤ) ≤ ⌊q⌋ := Int.floor_nonneg.mpr hq
  unfold roundHalfToEven
  split_ifs <;> omega

theorem roundHalfToEven_le (q : ℚ) (N : ℤ) (hq : q ≤ (N : ℚ)) :
    roundHalfToEven q ≤ N := by
  have hfl : ⌊q⌋ ≤ N := by
    have := Int.floor_le_floor hq
    simpa using this
  have hstep : 1 / 2 ≤ q - (⌊q⌋ : ℚ) → ⌊q⌋ + 1 ≤ N := by
    intro h
    by_contra hc
    have hqN : ⌊q⌋ = N := by omega
    have : (N : ℚ) + 1 / 2 ≤ q := by
      have := h
      rw [hqN] at this
      linarith
    linarith
  unfold roundHalfToEven
  split_ifs with h1 h2 h3
  · exact hfl
  · exact hstep (le_of_lt h2)
  · exact hfl
  · exact hstep (by linarith [not_lt.mp h1])

theorem round2_nonneg (q : ℚ) (hq : 0 ≤ q) : 0 ≤ round2 q := by
  unfold round2
  have : (0 : ℤ) ≤ roundHalfToEven (q * 100) :=
    roundHalfToEven_nonneg _ (by linarith)
  positivity

theorem round2_le_100 (q : ℚ) (hq : q ≤ 100) : round2 q ≤ 100 := by
  unfold round2
  have h1 : q * 100 ≤ ((10000 : ℤ) : ℚ) := by push_cast; linarith
  have h2 : roundHalfToEven (q * 100) ≤ 10000 := roundHalfToEven_le _ _ h1
  have h3 : ((roundHalfToEven (q * 100) : ℤ) : ℚ) ≤ 10000 := by exact_mod_cast h2
  linarith

theorem countConclusion_le_length (c : String) (runs : List WorkflowRun) :
    countConclusion c runs ≤ runs.length :=
  List.countP_le_length _

/-- The `"success"` and `"failure"` counts are disjoint parts of the run list:
their sum never exceeds the total, and reaches it exactly when every run has
one of the two conclusions. -/
theorem countConclusion_success_add_failure (runs : List WorkflowRun) :
    countConclusion "success" runs + countConclusion "failure" runs ≤ runs.length ∧
      (countConclusion "success" runs + countConclusion "failure" runs = runs.length ↔
        ∀ r ∈ runs, r.conclusion = "success" ∨ r.conclusion = "failure") := by
  induction runs with
  | nil => simp [countConclusion]
  | cons r rest ih =>
    obtain ⟨ihle, ihiff⟩ := ih
    simp only [countConclusion, List.countP_cons, List.length_cons,
      List.forall_mem_cons] at *
    by_cases h1 : r.conclusion = "success"
    · have hb1 : (r.conclusion == "success") = true := by simp [h1]
      have hb2 : ¬((r.conclusion == "failure") = true) := by simp [h1]
      rw [if_pos hb1, if_neg hb2]
      constructor
      · omega
      · rw [← ihiff]
        constructor
        · intro h
          exact ⟨Or.inl h1, by omega⟩
        · intro ⟨_, h⟩
          omega
    · by_cases h2 : r.conclusion = "failure"
      · have hb1 : ¬((r.conclusion == "success") = true) := by simp [h1]
        have hb2 : (r.conclusion == "failure") = true := by simp [h2]
        rw [if_neg hb1, if_pos hb2]
        constructor
        · omega
        · rw [← ihiff]
          constructor
          · intro h
            exact ⟨Or.inr h2, by omega⟩
          · intro ⟨_, h⟩
            omega
      · have hb1 : ¬((r.conclusion == "success") = true) := by simp [h1]
        have hb2 : ¬((r.conclusion == "failure") = true) := by simp [h2]
        rw [if_neg hb1, if_neg hb2]
        constructor
        · omega
        · constructor
          · intro h
            omega
          · intro ⟨hr, _⟩
            cases hr <;> simp_all

/-- If the tail after a failure holds no success at all, the rest of the MTTR
scan (which only looks at suffixes of that tail) finds nothing either. -/
theorem mttrScan_eq_none_of_no_success (l : List WorkflowRun)
    (h : firstSuccessAfter l = none) : mttrScan l = none := by
  induction l with
  | nil => rfl
  | cons r rest ih =>
    rw [firstSuccessAfter, List.find?_eq_none] at h
    have hr : (r.conclusion == "success") = false := by
      have := h r (List.mem_cons_self r rest)
      simpa using this
    have hrest : firstSuccessAfter rest = none := by
      rw [firstSuccessAfter, List.find?_eq_none]
      intro x hx
      exact h x (List.mem_cons_of_mem r hx)
    unfold mttrScan
    by_cases hf : (r.conclusion == "failure") = true
    · simp only [hf, if_true, firstSuccessAfter] at *
      rw [hrest]
      exact ih hrest
    · simp only [Bool.not_eq_true] at hf
      simp only [hf, Bool.false_eq_true, if_false]
      exact ih hrest

theorem paginateAux_requests_le (pages : ℕ → List α) (fuel : ℕ) :
    ∀ page acc, (paginateAux pages fuel page acc).2 ≤ fuel := by
  induction fuel with
  | zero => intro page acc; simp [paginateAux]
  | succ f ih =>
    intro page acc
    simp only [paginateAux]
    split_ifs
    · omega
    · omega
    · omega
    · have := ih (page + 1) (acc ++ pages page)
      simpa using Nat.succ_le_succ this

theorem paginateAux_requests_pos (pages : ℕ → List α) (fuel page : ℕ)
    (acc : List α) (h : 0 < fuel) : 1 ≤ (paginateAux pages fuel page acc).2 := by
  obtain ⟨f, rfl⟩ := Nat.exists_eq_succ_of_ne_zero (Nat.pos_iff_ne_zero.mp h)
  simp only [paginateAux]
  split_ifs <;> simp

/-- The accumulated result of the pagination loop is the accumulator followed
by the contents of the fetched pages, in page order. -/
theorem paginateAux_items (pages : ℕ → List α) (fuel : ℕ) :
    ∀ page acc,
      (paginateAux pages fuel page acc).1 =
        acc ++ ((List.range' page (paginateAux pages fuel page acc).2).map pages).flatten := by
  induction fuel with
  | zero => intro page acc; simp [paginateAux]
  | succ f ih =>
    intro page acc
    simp only [paginateAux]
    split_ifs with h1 h2 h3
    · have : pages page = [] := List.isEmpty_iff.mp h1
      simp [this]
    · simp
    · simp
    · have := ih (page + 1) (acc ++ pages page)
      simp only [this, List.range'_succ, List.map_cons, List.flatten_cons,
        List.append_assoc]

/-- Every page fetched strictly before the last one was a full page: the loop
only moved on after seeing at least 100 items. -/
theorem paginateAux_full_before (pages : ℕ → List α) (fuel : ℕ) :
    ∀ page acc k, page ≤ k → k + 1 < page + (paginateAux pages fuel page acc).2 →
      100 ≤ (pages k).length := by
  induction fuel with
  | zero =>
    intro page acc k hk hlt
    simp [paginateAux] at hlt
    omega
  | succ f ih =>
    intro page acc k hk hlt
    simp only [paginateAux] at hlt ⊢
    split_ifs at hlt with h1 h2 h3
    · omega
    · omega
    · omega
    · rcases Nat.eq_or_lt_of_le hk with heq | hlt2
      · subst heq
        omega
      · exact ih (page + 1) (acc ++ pages page) k hlt2 (by omega)

/-- Why the loop stopped: either the last page fetched was short (fewer than
100 items, including the empty-page break), or the loop hit the 10-page
ceiling.  `fuel` is tied to `page` exactly as in `getPaginated`. -/
theorem paginateAux_stop (pages : ℕ → List α) (fuel : ℕ) :
    ∀ page acc, page + fuel = 11 → 1 ≤ page →
      (pages (page + (paginateAux pages fuel page acc).2 - 1)).length < 100 ∨
        page + (paginateAux pages fuel page acc).2 - 1 = 10 := by
  induction fuel with
  | zero =>
    intro page acc hsum hpage
    right
    simp only [paginateAux]
    omega
  | succ f ih =>
    intro page acc hsum hpage
    simp only [paginateAux]
    split_ifs with h1 h2 h3
    · left
      have : pages page = [] := List.isEmpty_iff.mp h1
      simp [this]
    · left
      simpa using h2
    · right
      omega
    · have hf : 0 < f := by omega
      have hreq := paginateAux_requests_pos pages f (page + 1) (acc ++ pages page) hf
      have := ih (page + 1) (acc ++ pages page) (by omega) (by omega)
      rcases this with hshort | hceil
      · left
        have hidx : page + ((paginateAux pages f (page + 1) (acc ++ pages page)).2 + 1) - 1 =
            page + 1 + (paginateAux pages f (page + 1) (acc ++ pages page)).2 - 1 := by
          omega
        simpa [hidx] using hshort
      · right
        omega

/-- The double loop of `collect_dora_metrics` computes exactly the
first-failure / next-success pair: once the first failure is reached, either
a later success exists (and the loop stops with that pair), or no success
exists in the remainder at all, in which case the outer loop's further
iterations can never succeed either. -/
theorem mttrScan_eq_firstPair (l : List WorkflowRun) :
    mttrScan l = mttrFirstFailureNextSuccess l := by
  induction l with
  | nil => rfl
  | cons r rest ih =>
    unfold mttrScan mttrFirstFailureNextSuccess
    by_cases hf : (r.conclusion == "failure") = true
    · simp only [hf, if_true]
      cases hs : firstSuccessAfter rest with
      | some s => simp
      | none => simp [mttrScan_eq_none_of_no_success rest hs]
    · simp only [Bool.not_eq_true] at hf
      simp only [hf, Bool.false_eq_true, if_false]
      exact ih

end Metrics

/-! ## Claims -/

open Metrics

/-- C1: for every pair of rationals `a`, `b`, `divide(a, b)` fails with the
exact message `"Division by zero is not allowed"` when `b = 0` and otherwise
returns `a / b`.  The remaining operations of the calculator module are the
plain total functions `a + b`, `a - b`, `a * b`, so `divide` is the only
operation that can fail. -/
theorem c1_divide_spec (a b : ℚ) :
    CalcApp.divide a b =
      (if b = 0 then Except.error "Division by zero is not allowed"
       else Except.ok (a / b)) ∧
    CalcApp.divisionByZeroMessage = "Division by zero is not allowed" ∧
    CalcApp.add a b = a + b ∧
    CalcApp.subtract a b = a - b ∧
    CalcApp.multiply a b = a * b :=
  ⟨rfl, rfl, rfl, rfl, rfl⟩

/-- C8: `add(a, b)` equals `a + b` for all numbers, and `add` is
commutative. -/
theorem c8_add_comm (a b : ℚ) :
    CalcApp.add a b = a + b ∧ CalcApp.add a b = CalcApp.add b a :=
  ⟨rfl, add_comm a b⟩

/-- C6: for every valid `{a, b}` body, `POST /div` answers 400 with detail
`"Division by zero is not allowed"` when `b = 0`, and 200 with result
`a / b` otherwise. -/
theorem c6_div_endpoint (a b : ℚ) :
    CalcApp.divide_numbers ⟨a, b⟩ =
      (if b = 0 then CalcApp.Response.badRequest "Division by zero is not allowed"
       else CalcApp.Response.success (a / b)) ∧
    (CalcApp.divide_numbers ⟨a, b⟩).statusCode = (if b = 0 then 400 else 200) := by
  by_cases hb : b = 0 <;>
    simp [CalcApp.divide_numbers, CalcApp.divide, CalcApp.divisionByZeroMessage,
      hb, CalcApp.Response.statusCode]

/-- C2: the MTTR value computed by `collect_dora_metrics` (the `mttr_hours`
variable after the scan) equals the elapsed hours between the chronologically
first failed run and the first success after it in ascending `created_at`
order, and is `none` when no failed-then-successful pair exists; the report
field is that value passed through the truthiness/rounding guard. -/
theorem c2_mttr_first_pair (cd_runs : List WorkflowRun) :
    doraMttrHours cd_runs = mttrFirstFailureNextSuccess (sortByCreated cd_runs) ∧
    (collect_dora_metrics cd_runs).mttr_hours = truthyRound2 (doraMttrHours cd_runs) :=
  ⟨mttrScan_eq_firstPair _, rfl⟩

/-- C4: each rate computation (change failure rate, CI success rate, security
success rate) yields 0 when the run list is empty, and otherwise the
corresponding count over the total as a percentage rounded to two decimals. -/
theorem c4_rates_zero_guard (cd ci sec : List WorkflowRun) :
    (collect_dora_metrics cd).change_failure_rate_percent =
      (if cd.length = 0 then 0
       else round2 ((countConclusion "failure" cd : ℚ) / (cd.length : ℚ) * 100)) ∧
    (collect_ci_metrics ci).ci_success_rate_percent =
      (if ci.length = 0 then 0
       else round2 ((countConclusion "success" ci : ℚ) / (ci.length : ℚ) * 100)) ∧
    (collect_security_metrics sec).security_success_rate_percent =
      (if sec.length = 0 then 0
       else round2 ((countConclusion "success" sec : ℚ) / (sec.length : ℚ) * 100)) := by
  refine ⟨?_, ?_, ?_⟩
  · show round2 (if 0 < cd.length then _ else 0) = _
    rcases Nat.eq_zero_or_pos cd.length with h | h
    · simp [h, round2_zero]
    · simp [h, Nat.pos_iff_ne_zero.mp h]
  · show round2 (if 0 < ci.length then _ else 0) = _
    rcases Nat.eq_zero_or_pos ci.length with h | h
    · simp [h, round2_zero]
    · simp [h, Nat.pos_iff_ne_zero.mp h]
  · show round2 (if 0 < sec.length then _ else 0) = _
    rcases Nat.eq_zero_or_pos sec.length with h | h
    · simp [h, round2_zero]
    · simp [h, Nat.pos_iff_ne_zero.mp h]

/-- C5: on a non-empty list of lead times the median proxy is the element at
index `⌊n / 2⌋` of the sorted list; on `[1, 2, 3, 4]` that is the
upper-middle element 3, not the mathematical median 5/2. -/
theorem c5_median_upper_middle (l : List ℚ) :
    (∀ _ : l ≠ [], ∃ hm : l.length / 2 < (sortQ l).length,
        medianLeadTime l = some ((sortQ l).get ⟨l.length / 2, hm⟩)) ∧
    medianLeadTime [1, 2, 3, 4] = some 3 ∧
    medianLeadTime [1, 2, 3, 4] ≠ some (5 / 2) := by
  have h3 : medianLeadTime [1, 2, 3, 4] = some 3 := by decide
  refine ⟨?_, h3, ?_⟩
  swap
  · rw [h3]
    simp only [ne_eq, Option.some.injEq]
    norm_num
  intro hne
  have hlen : (sortQ l).length = l.length :=
    (List.perm_insertionSort _ l).length_eq
  have hm : l.length / 2 < (sortQ l).length := by
    rw [hlen]
    exact Nat.div_lt_self (List.length_pos.mpr hne) one_lt_two
  refine ⟨hm, ?_⟩
  rw [medianLeadTime, if_neg (by simpa [List.isEmpty_iff] using hne)]
  exact List.get?_eq_get hm

/-- Witness for C5 at the concrete non-empty input `[1, 2]`. -/
theorem c5_median_upper_middle_witness :
    ∃ hm : ([1, 2] : List ℚ).length / 2 < (sortQ [1, 2]).length,
      medianLeadTime [1, 2] =
        some ((sortQ [1, 2]).get ⟨([1, 2] : List ℚ).length / 2, hm⟩) :=
  (c5_median_upper_middle [1, 2]).1 (by decide)

/-- C9: whenever a computed average, median, or recovery-time value is exactly
0, the corresponding report field is `none` rather than `some 0`, because the
`round(v, 2) if v else None` guards test the value's truthiness and a float
zero is falsy; a genuine zero result is indistinguishable from absent data. -/
theorem c9_zero_is_reported_none (ws : ℤ) (cd : List WorkflowRun)
    (prs : List PullRequest) (ci : List WorkflowRun) :
    (doraMttrHours cd = some 0 → (collect_dora_metrics cd).mttr_hours = none) ∧
    (averageQ (leadTimes (mergedInWindow ws prs)) = some 0 →
      (collect_pr_metrics ws prs).pr_lead_time_avg_hours = none) ∧
    (medianLeadTime (leadTimes (mergedInWindow ws prs)) = some 0 →
      (collect_pr_metrics ws prs).pr_lead_time_median_hours = none) ∧
    (averageQ (runDurationsMinutes false ci) = some 0 →
      (collect_ci_metrics ci).ci_avg_duration_minutes = none) ∧
    (averageQ (runDurationsMinutes true cd) = some 0 →
      (collect_deploy_duration_metrics cd).deploy_avg_duration_minutes = none) := by
  refine ⟨fun h => ?_, fun h => ?_, fun h => ?_, fun h => ?_, fun h => ?_⟩
  · show truthyRound2 (doraMttrHours cd) = none
    rw [h]
    rfl
  · show truthyRound2 (averageQ (leadTimes (mergedInWindow ws prs))) = none
    rw [h]
    rfl
  · show truthyRound2 (medianLeadTime (leadTimes (mergedInWindow ws prs))) = none
    rw [h]
    rfl
  · show truthyRound2 (averageQ (runDurationsMinutes false ci)) = none
    rw [h]
    rfl
  · show truthyRound2 (averageQ (runDurationsMinutes true cd)) = none
    rw [h]
    rfl

/-- Witness for C9: a failed and a successful deploy at the same instant, a
PR merged at its creation instant, and a CI run updated at its start instant
all produce computed zeros, and every corresponding report field is `none`. -/
theorem c9_zero_is_reported_none_witness :
    (collect_dora_metrics [wRunFail, wRunSucc]).mttr_hours = none ∧
    (collect_pr_metrics 0 [wPrZero]).pr_lead_time_avg_hours = none ∧
    (collect_pr_metrics 0 [wPrZero]).pr_lead_time_median_hours = none ∧
    (collect_ci_metrics [wRunCi]).ci_avg_duration_minutes = none ∧
    (collect_deploy_duration_metrics [wRunFail, wRunSucc]).deploy_avg_duration_minutes
      = none := by
  obtain ⟨h1, h2, h3, h4, h5⟩ :=
    c9_zero_is_reported_none 0 [wRunFail, wRunSucc] [wPrZero] [wRunCi]
  have hmttr : doraMttrHours [wRunFail, wRunSucc] = some 0 := by
    have hsort : sortByCreated [wRunFail, wRunSucc] = [wRunFail, wRunSucc] := by
      norm_num [sortByCreated, List.insertionSort, List.orderedInsert,
        wRunFail, wRunSucc]
    rw [doraMttrHours, hsort]
    norm_num [mttrScan, firstSuccessAfter, List.find?, wRunFail, wRunSucc,
      elapsedHours]
  have hlead : leadTimes (mergedInWindow 0 [wPrZero]) = [0] := by
    norm_num [mergedInWindow, leadTimes, wPrZero, elapsedHours, List.filter,
      List.filterMap_cons, List.filterMap_nil, Option.map_some']
  have havg : averageQ [(0 : ℚ)] = some 0 := by
    norm_num [averageQ]
  have hmed : medianLeadTime [(0 : ℚ)] = some 0 := by
    norm_num [medianLeadTime, sortQ, List.insertionSort, List.orderedInsert]
  have hci : runDurationsMinutes false [wRunCi] = [0] := by
    norm_num [runDurationsMinutes, wRunCi, elapsedMinutes, List.filterMap]
  have hdep : runDurationsMinutes true [wRunFail, wRunSucc] = [0] := by
    have hfs : ("failure" = "success") = False := by simp
    norm_num [runDurationsMinutes, wRunFail, wRunSucc, elapsedMinutes,
      List.filterMap, hfs]
  exact ⟨h1 hmttr, h2 (by rw [hlead]; exact havg), h3 (by rw [hlead]; exact hmed),
    h4 (by rw [hci]; exact havg), h5 (by rw [hdep]; exact havg)⟩

/-- C10: in `collect_dora_metrics`, successful plus failed deployments never
exceed the total, with equality exactly when every run concluded `"success"`
or `"failure"`, and the change failure rate always lies in `[0, 100]`. -/
theorem c10_dora_invariants (cd_runs : List WorkflowRun) :
    (collect_dora_metrics cd_runs).deployments_successful +
        (collect_dora_metrics cd_runs).deployments_failed ≤
      (collect_dora_metrics cd_runs).deployments_total ∧
    ((collect_dora_metrics cd_runs).deployments_successful +
          (collect_dora_metrics cd_runs).deployments_failed =
        (collect_dora_metrics cd_runs).deployments_total ↔
      ∀ r ∈ cd_runs, r.conclusion = "success" ∨ r.conclusion = "failure") ∧
    0 ≤ (collect_dora_metrics cd_runs).change_failure_rate_percent ∧
    (collect_dora_metrics cd_runs).change_failure_rate_percent ≤ 100 := by
  obtain ⟨hle, hiff⟩ := countConclusion_success_add_failure cd_runs
  refine ⟨hle, hiff, ?_, ?_⟩
  · show 0 ≤ round2 (if 0 < cd_runs.length then _ else 0)
    rcases Nat.eq_zero_or_pos cd_runs.length with h | h
    · rw [h]
      simp [round2_zero]
    · rw [if_pos h]
      refine round2_nonneg _ ?_
      have h0 : (0 : ℚ) < (cd_runs.length : ℚ) := by exact_mod_cast h
      positivity
  · show round2 (if 0 < cd_runs.length then _ else 0) ≤ 100
    rcases Nat.eq_zero_or_pos cd_runs.length with h | h
    · rw [h]
      simp [round2_zero]
    · rw [if_pos h]
      refine round2_le_100 _ ?_
      have h0 : (0 : ℚ) < (cd_runs.length : ℚ) := by exact_mod_cast h
      have hc : (countConclusion "failure" cd_runs : ℚ) ≤ (cd_runs.length : ℚ) := by
        exact_mod_cast countConclusion_le_length "failure" cd_runs
      have hdiv : (countConclusion "failure" cd_runs : ℚ) / (cd_runs.length : ℚ) ≤ 1 :=
        (div_le_one h0).mpr hc
      linarith

/-- C3: the paginated fetch accumulates the fetched pages in order; it stops
exactly at the first page with fewer than 100 items or after the 10th page,
whichever comes first (every earlier page had at least 100 items, and the
last page is short unless the 10-page ceiling was hit); it never issues more
than 10 page requests; and if every page holds at most 100 items the result
never exceeds 1000 items. -/
theorem c3_pagination_bounds {α : Type} (pages : ℕ → List α) :
    1 ≤ (getPaginated pages).2 ∧
    (getPaginated pages).2 ≤ 10 ∧
    (getPaginated pages).1 =
      ((List.range' 1 (getPaginated pages).2).map pages).flatten ∧
    (∀ k, 1 ≤ k → k < (getPaginated pages).2 → 100 ≤ (pages k).length) ∧
    ((pages (getPaginated pages).2).length < 100 ∨ (getPaginated pages).2 = 10) ∧
    ((∀ p, (pages p).length ≤ 100) → (getPaginated pages).1.length ≤ 1000) := by
  refine ⟨?_, ?_, ?_, ?_, ?_, ?_⟩
  · exact paginateAux_requests_pos pages 10 1 [] (by norm_num)
  · exact paginateAux_requests_le pages 10 1 []
  · simpa using paginateAux_items pages 10 1 []
  · intro k hk hlt
    have heq : (getPaginated pages).2 = (paginateAux pages 10 1 ([] : List α)).2 := rfl
    exact paginateAux_full_before pages 10 1 [] k hk (by omega)
  · have hreq := paginateAux_requests_pos pages 10 1 [] (by norm_num)
    have := paginateAux_stop pages 10 1 [] (by norm_num) (le_refl 1)
    have hidx : 1 + (paginateAux pages 10 1 ([] : List α)).2 - 1 =
        (paginateAux pages 10 1 ([] : List α)).2 := by omega
    rw [hidx] at this
    rcases this with h | h
    · exact Or.inl h
    · right
      show (paginateAux pages 10 1 ([] : List α)).2 = 10
      omega
  · intro hbound
    have hitems := paginateAux_items pages 10 1 ([] : List α)
    have hreq := paginateAux_requests_le pages 10 1 ([] : List α)
    show (paginateAux pages 10 1 ([] : List α)).1.length ≤ 1000
    rw [hitems]
    simp only [List.nil_append, List.length_flatten, List.map_map]
    have hsum :
        ((List.range' 1 (paginateAux pages 10 1 ([] : List α)).2).map
            (List.length ∘ pages)).sum ≤
          (List.range' 1 (paginateAux pages 10 1 ([] : List α)).2).length * 100 := by
      have := List.sum_le_card_nsmul
        ((List.range' 1 (paginateAux pages 10 1 ([] : List α)).2).map
          (List.length ∘ pages)) 100 ?_
      · simpa [smul_eq_mul] using this
      · intro x hx
        obtain ⟨p, _, rfl⟩ := List.mem_map.mp hx
        exact hbound p
    have hlen : (List.range' 1 (paginateAux pages 10 1 ([] : List α)).2).length =
        (paginateAux pages 10 1 ([] : List α)).2 := List.length_range' _ _ _
    calc ((List.range' 1 (paginateAux pages 10 1 ([] : List α)).2).map
            (List.length ∘ pages)).sum
        ≤ (List.range' 1 (paginateAux pages 10 1 ([] : List α)).2).length * 100 := hsum
      _ ≤ 10 * 100 := by rw [hlen]; omega
      _ ≤ 1000 := by norm_num

/-- Witness for C3 at the concrete page function with no items at all: at
most 1000 items are returned. -/
theorem c3_pagination_bounds_witness :
    (getPaginated (fun _ => ([] : List ℕ))).1.length ≤ 1000 :=
  (c3_pagination_bounds (fun _ => ([] : List ℕ))).2.2.2.2.2 (fun _ => by simp)

namespace Metrics

theorem getPaginatedEx_error_first {α : Type} (fetch : ℕ → Except String (List α))
    (e : String) (h : fetch 1 = .error e) : getPaginatedEx fetch = .error e := by
  unfold getPaginatedEx paginateExAux
  rw [h]

/-- If the whole collection succeeded, then every one of the six collectors
succeeded: no aggregation swallows another's fetch error. -/
theorem collect_all_metrics_ok (ws : ℤ) (env : FetchEnv) (r : MetricsReport)
    (h : collect_all_metrics ws env = .ok r) :
    (∃ x, collectDoraEx env = .ok x) ∧ (∃ x, collectPrEx ws env = .ok x) ∧
    (∃ x, collectCiEx env = .ok x) ∧ (∃ x, collectDeployEx env = .ok x) ∧
    (∃ x, collectSecurityEx env = .ok x) ∧
    (∃ x, collectDependabotEx ws env = .ok x) := by
  unfold collect_all_metrics at h
  cases h1 : collectDoraEx env with
  | error e => rw [h1] at h; simp [Bind.bind, Except.bind] at h
  | ok dora =>
  rw [h1] at h
  cases h2 : collectPrEx ws env with
  | error e => rw [h2] at h; simp [Bind.bind, Except.bind] at h
  | ok prm =>
  rw [h2] at h
  cases h3 : collectCiEx env with
  | error e => rw [h3] at h; simp [Bind.bind, Except.bind] at h
  | ok cim =>
  rw [h3] at h
  cases h4 : collectDeployEx env with
  | error e => rw [h4] at h; simp [Bind.bind, Except.bind] at h
  | ok dem =>
  rw [h4] at h
  cases h5 : collectSecurityEx env with
  | error e => rw [h5] at h; simp [Bind.bind, Except.bind] at h
  | ok sem =>
  rw [h5] at h
  cases h6 : collectDependabotEx ws env with
  | error e => rw [h6] at h; simp [Bind.bind, Except.bind] at h
  | ok dbm =>
  exact ⟨⟨dora, rfl⟩, ⟨prm, rfl⟩, ⟨cim, rfl⟩, ⟨dem, rfl⟩, ⟨sem, rfl⟩, ⟨dbm, rfl⟩⟩

end Metrics

/-- C7: a failing HTTP GET during metrics collection is fatal: the error
propagates out of `collect_all_metrics` uncaught (a failure of the very first
GET surfaces verbatim, and no aggregation's failure is swallowed — a
successful collection requires every collector to have succeeded), and on any
collection failure the output file is not written at all. -/
theorem c7_fetch_failure_fatal (ws : ℤ) (env : FetchEnv) (e : String) :
    (collect_all_metrics ws env = .error e → mainOutputFile ws env = none) ∧
    (env.runsPage 1 = .error e → collect_all_metrics ws env = .error e) ∧
    (collectDoraEx env = .error e → ∃ e2, collect_all_metrics ws env = .error e2) ∧
    (collectPrEx ws env = .error e → ∃ e2, collect_all_metrics ws env = .error e2) ∧
    (collectCiEx env = .error e → ∃ e2, collect_all_metrics ws env = .error e2) ∧
    (collectDeployEx env = .error e → ∃ e2, collect_all_metrics ws env = .error e2) ∧
    (collectSecurityEx env = .error e →
      ∃ e2, collect_all_metrics ws env = .error e2) ∧
    (collectDependabotEx ws env = .error e →
      ∃ e2, collect_all_metrics ws env = .error e2) := by
  refine ⟨?_, ?_, ?_, ?_, ?_, ?_, ?_, ?_⟩
  · intro h
    unfold mainOutputFile
    rw [h]
  · intro h
    have hd : collectDoraEx env = .error e := by
      unfold collectDoraEx getWorkflowRunsEx
      rw [getPaginatedEx_error_first env.runsPage e h]
      rfl
    unfold collect_all_metrics
    rw [hd]
    rfl
  · intro h
    cases hc : collect_all_metrics ws env with
    | error e2 => exact ⟨e2, rfl⟩
    | ok r =>
      obtain ⟨⟨x, hx⟩, -, -, -, -, -⟩ := collect_all_metrics_ok ws env r hc
      rw [h] at hx
      exact absurd hx (by simp)
  · intro h
    cases hc : collect_all_metrics ws env with
    | error e2 => exact ⟨e2, rfl⟩
    | ok r =>
      obtain ⟨-, ⟨x, hx⟩, -, -, -, -⟩ := collect_all_metrics_ok ws env r hc
      rw [h] at hx
      exact absurd hx (by simp)
  · intro h
    cases hc : collect_all_metrics ws env with
    | error e2 => exact ⟨e2, rfl⟩
    | ok r =>
      obtain ⟨-, -, ⟨x, hx⟩, -, -, -⟩ := collect_all_metrics_ok ws env r hc
      rw [h] at hx
      exact absurd hx (by simp)
  · intro h
    cases hc : collect_all_metrics ws env with
    | error e2 => exact ⟨e2, rfl⟩
    | ok r =>
      obtain ⟨-, -, -, ⟨x, hx⟩, -, -⟩ := collect_all_metrics_ok ws env r hc
      rw [h] at hx
      exact absurd hx (by simp)
  · intro h
    cases hc : collect_all_metrics ws env with
    | error e2 => exact ⟨e2, rfl⟩
    | ok r =>
      obtain ⟨-, -, -, -, ⟨x, hx⟩, -⟩ := collect_all_metrics_ok ws env r hc
      rw [h] at hx
      exact absurd hx (by simp)
  · intro h
    cases hc : collect_all_metrics ws env with
    | error e2 => exact ⟨e2, rfl⟩
    | ok r =>
      obtain ⟨-, -, -, -, -, ⟨x, hx⟩⟩ := collect_all_metrics_ok ws env r hc
      rw [h] at hx
      exact absurd hx (by simp)

/-- Witness for C7 in the environment where every page GET raises: the
collection aborts with that error, each collector fails, and no output file
is produced. -/
theorem c7_fetch_failure_fatal_witness :
    mainOutputFile 0 envAllError = none ∧
    collect_all_metrics 0 envAllError = .error "boom" ∧
    (∃ e2, collect_all_metrics 0 envAllError = .error e2) := by
  obtain ⟨h1, h2, h3, -⟩ := c7_fetch_failure_fatal 0 envAllError "boom"
  have hc : collect_all_metrics 0 envAllError = .error "boom" := h2 rfl
  exact ⟨h1 hc, hc, h3 rfl⟩

/-- Witness for C10 at the concrete one-element run list `[wRunFail]`. -/
theorem c10_dora_invariants_witness :
    (collect_dora_metrics [wRunFail]).deployments_successful +
        (collect_dora_metrics [wRunFail]).deployments_failed ≤
      (collect_dora_metrics [wRunFail]).deployments_total ∧
    ((collect_dora_metrics [wRunFail]).deployments_successful +
          (collect_dora_metrics [wRunFail]).deployments_failed =
        (collect_dora_metrics [wRunFail]).deployments_total ↔
      ∀ r ∈ [wRunFail], r.conclusion = "success" ∨ r.conclusion = "failure") ∧
    0 ≤ (collect_dora_metrics [wRunFail]).change_failure_rate_percent ∧
    (collect_dora_metrics [wRunFail]).change_failure_rate_percent ≤ 100 :=
  c10_dora_invariants [wRunFail]
